import Mathlib

/-!
Verification development for the OloOption backtesting engine.

Python floats are embedded as rationals (ℚ), Python ints as Int/Nat, Python
dicts as association lists in insertion order (Python dicts preserve insertion
order; keys are unique, so first-match lookup agrees with dict lookup), and
fallible code (try/except, exceptions) as Option/Except.  Every definition is
translated from the corresponding function in src/backtesting_engine unless its
doc comment says otherwise.
-/

set_option maxRecDepth 40000

namespace Olo

attribute [local semireducible] Rat.add Rat.mul Rat.sub Rat.inv

instance {α β : Type} [DecidableEq α] [DecidableEq β] : DecidableEq (Except α β) :=
  fun a b =>
    match a, b with
    | Except.error x, Except.error y =>
      if h : x = y then Decidable.isTrue (by rw [h]) else
        Decidable.isFalse (by intro hc; cases hc; exact h rfl)
    | Except.error _, Except.ok _ => Decidable.isFalse (by intro hc; cases hc)
    | Except.ok _, Except.error _ => Decidable.isFalse (by intro hc; cases hc)
    | Except.ok x, Except.ok y =>
      if h : x = y then Decidable.isTrue (by rw [h]) else
        Decidable.isFalse (by intro hc; cases hc; exact h rfl)

/-- First-match lookup in an association list (model of Python dict lookup;
dict keys are unique so first match equals the dict entry). -/
def alookup {α β : Type} [DecidableEq α] : List (α × β) → α → Option β
  | [], _ => none
  | (k, v) :: rest, key => if k = key then some v else alookup rest key

/-- Python `dict.get(key, default)`. -/
def alookupD {α β : Type} [DecidableEq α] (l : List (α × β)) (key : α) (d : β) : β :=
  (alookup l key).getD d

/-- Accumulate decimal digits; fails on any non-digit character
(model of the digit scan inside Python `float`/`int` parsing). -/
def parseNatDigits : List Char → Nat → Option Nat
  | [], acc => some acc
  | c :: cs, acc =>
    if c.isDigit then parseNatDigits cs (10 * acc + (c.toNat - 48)) else none

/-- Python `str.split(sep)` for a single-character separator, over the
character list of the string. -/
def splitOnCharList (sep : Char) : List Char → List (List Char)
  | [] => [[]]
  | c :: cs =>
    match splitOnCharList sep cs with
    | [] => [[]]
    | h :: t => if c = sep then [] :: h :: t else (c :: h) :: t

/-- Python `str.split(sep)` for a single-character separator (the engine only
ever splits on "_" and "."). -/
def splitOnChar (sep : Char) (s : String) : List String :=
  (splitOnCharList sep s.toList).map String.mk

/-- ASCII lower-casing of one character (Python `str.lower` on the ASCII
setup ids the engine uses). -/
def charToLower (c : Char) : Char :=
  if 65 ≤ c.toNat ∧ c.toNat ≤ 90 then Char.ofNat (c.toNat + 32) else c

/-- Python `str.lower` on ASCII strings. -/
def strToLower (s : String) : String := String.mk (s.toList.map charToLower)

/-- Whether the first list is an initial segment of the second. -/
def beginsWith : List Char → List Char → Bool
  | [], _ => true
  | _ :: _, [] => false
  | p :: ps, c :: cs => decide (p = c) && beginsWith ps cs

/-- Whether `pat` occurs contiguously inside the list. -/
def occursIn (pat : List Char) : List Char → Bool
  | [] => pat.isEmpty
  | c :: cs => beginsWith pat (c :: cs) || occursIn pat cs

/-- Python `float(s)` restricted to the unsigned decimal literals that the
engine's option-key encodings produce ("580", "580.0", ".5", "580.").
Any other shape raises ValueError in Python, i.e. returns `none` here. -/
def parseFloatUnsigned (s : String) : Option ℚ :=
  match splitOnChar '.' s with
  | [ip] =>
    if ip.length = 0 then none
    else (parseNatDigits ip.toList 0).map (fun n => (n : ℚ))
  | [ip, fp] =>
    if ip.length = 0 ∧ fp.length = 0 then none
    else
      match parseNatDigits ip.toList 0, parseNatDigits fp.toList 0 with
      | some i, some f => some ((i : ℚ) + (f : ℚ) / (10 : ℚ) ^ fp.length)
      | _, _ => none
  | _ => none

/-- Python `float(s)` on decimal literals, with an optional leading minus. -/
def parseFloat (s : String) : Option ℚ :=
  match s.toList with
  | '-' :: rest => (parseFloatUnsigned (String.mk rest)).map (fun q => -q)
  | _ => parseFloatUnsigned s

/-- Python `int(s)` on decimal integer literals (optional leading minus);
anything else raises ValueError, i.e. `none`. -/
def parseInt (s : String) : Option Int :=
  match s.toList with
  | '-' :: rest =>
    if rest.isEmpty then none
    else (parseNatDigits rest 0).map (fun n => -(n : Int))
  | cs =>
    if cs.isEmpty then none
    else (parseNatDigits cs 0).map (fun n => (n : Int))

/-- Python `pat in s`. -/
def containsSub (s pat : String) : Bool := occursIn pat.toList s.toList

/-- Python builtin `min` on two floats (kernel-reducible, unlike the bundled
order-structure `min` on ℚ). -/
def pymin (a b : ℚ) : ℚ := if a ≤ b then a else b

/-- Python builtin `max` on two floats. -/
def pymax (a b : ℚ) : ℚ := if a ≤ b then b else a

/-- Python builtin `abs` on a float. -/
def pyabs (a : ℚ) : ℚ := if a < 0 then -a else a

/-- models.MarketData: market data at a specific timestamp.  The `symbol`
field has no default in the dataclass, so every constructor call must supply
it (position_manager.check_time_based_closures does not — see
`check_time_based_closures`). -/
structure MarketData where
  timestamp : Int
  symbol : String
  spot_price : ℚ
  option_prices : List (String × List (ℚ × ℚ))
  available_strikes : List ℚ
  price_velocity : ℚ := 0
  estimated_volatility : ℚ := 0
  trend_strength : ℚ := 0
  regime_classification : String := "UNKNOWN"
  deriving DecidableEq

/-- models.Position: a single open multi-leg options position. -/
structure Position where
  setup_id : String
  entry_timeindex : Int
  entry_prices : List (String × ℚ)
  strikes : List (String × ℚ)
  quantity : Int
  lot_size : Int := 100
  target_pnl : ℚ := 0
  stop_loss_pnl : ℚ := 0
  current_pnl : ℚ := 0
  position_type : String := "SELL"
  force_close_timeindex : Int := 4650
  slippage : ℚ := 1/200
  symbol : String := ""
  gamma_pnl : ℚ := 0
  theta_pnl : ℚ := 0
  current_delta : ℚ := 0
  rebalance_count : Int := 0
  leg_count : Int := 1
  max_risk : ℚ := 0
  max_profit : ℚ := 0
  breakeven_points : List ℚ := []
  unlimited_risk : Bool := false
  requires_coordination : Bool := false
  partial_closure_allowed : Bool := true
  deriving DecidableEq

/-- models.Trade: immutable record of a closed position. -/
structure Trade where
  setup_id : String
  entry_timeindex : Int
  exit_timeindex : Int
  entry_prices : List (String × ℚ)
  exit_prices : List (String × ℚ)
  strikes : List (String × ℚ)
  quantity : Int
  pnl : ℚ
  exit_reason : String
  date : String := ""
  symbol : String := ""
  gamma_pnl : ℚ := 0
  theta_pnl : ℚ := 0
  final_delta : ℚ := 0
  rebalance_count : Int := 0
  deriving DecidableEq

/-- The decoded leg descriptor built by PositionManager._parse_option_key. -/
structure LegDetails where
  option_type : String
  strike : ℚ
  action : String
  quantity : Int
  deriving DecidableEq

/-- models.TradingSetup constructor-supplied configuration (the abstract
strategy methods are external collaborators, spec section 6). -/
structure TradingSetup where
  setup_id : String
  target_pct : ℚ
  stop_loss_pct : ℚ
  entry_timeindex : Int
  close_timeindex : Int := 4650
  strike_selection : String := "premium"
  scalping_price : ℚ := 2/5
  strikes_away : Int := 2
  deriving DecidableEq

/-- PositionManager._parse_option_key: position-type-aware decoding of a leg
key into option type, strike, action and quantity.  `none` models the
except-branch (ValueError from float/int, IndexError from parts indexing). -/
def parse_option_key (position : Position) (option_key : String) : Option LegDetails :=
  let parts := splitOnChar '_' option_key
  let option_type := parts.getD 0 ""
  let base : LegDetails :=
    { option_type := option_type, strike := 0,
      action := position.position_type, quantity := position.quantity }
  if position.position_type = "IRON_CONDOR" ∨ position.position_type = "VERTICAL_SPREAD" ∨
      position.position_type = "VOLATILITY_SKEW" then
    if parts.length ≥ 3 then
      (parseFloat (parts.getD 1 "")).map
        (fun st => { base with strike := st, action := parts.getD 2 "" })
    else some base
  else if position.position_type = "BUTTERFLY" then
    if containsSub option_key "LOWER" then
      let st := alookupD position.strikes (option_type ++ "_BUY_LOWER") 0
      some { base with strike := st, action := "BUY", quantity := 1 }
    else if containsSub option_key "BODY" then
      let st := alookupD position.strikes (option_type ++ "_SELL_BODY") 0
      some { base with strike := st, action := "SELL", quantity := 2 }
    else if containsSub option_key "UPPER" then
      let st := alookupD position.strikes (option_type ++ "_BUY_UPPER") 0
      some { base with strike := st, action := "BUY", quantity := 1 }
    else some base
  else if position.position_type = "RATIO_SPREAD" then
    if parts.length ≥ 3 then
      match parseFloat (parts.getD 1 "") with
      | none => none
      | some st =>
        if parts.length > 3 then
          (parseInt (parts.getD 3 "")).map
            (fun q => { base with strike := st, action := parts.getD 2 "", quantity := q })
        else some { base with strike := st, action := parts.getD 2 "" }
    else some base
  else if position.position_type = "HEDGED" ∨ position.position_type = "GAMMA_SCALP" ∨
      position.position_type = "GAMMA_SCALP_REBALANCED" then
    if parts.length ≥ 3 then
      (parseFloat (parts.getD 1 "")).map
        (fun st => { base with strike := st, action := parts.getD 2 "" })
    else if parts.length ≥ 2 then
      (parseFloat (parts.getD 1 "")).map (fun st => { base with strike := st })
    else none
  else
    if parts.length ≥ 2 then
      (parseFloat (parts.getD 1 "")).map (fun st => { base with strike := st })
    else some base

/-- PositionManager._calculate_leg_pnl: P&L for a single option leg with
asymmetric slippage. -/
def calculate_leg_pnl (entry_price current_price : ℚ) (action : String)
    (quantity lot_size : Int) (slippage : ℚ) : ℚ :=
  if action = "SELL" ∨ action = "SHORT" then
    ((entry_price - slippage) - (current_price + slippage)) * (quantity : ℚ) * (lot_size : ℚ)
  else
    ((current_price - slippage) - (entry_price + slippage)) * (quantity : ℚ) * (lot_size : ℚ)

/-- Current price lookup in a snapshot: `option_type in option_prices and
strike in option_prices[option_type]`. -/
def option_price (md : MarketData) (option_type : String) (strike : ℚ) : Option ℚ :=
  (alookup md.option_prices option_type).bind (fun m => alookup m strike)

/-- One leg's contribution inside PositionManager._calculate_position_pnl:
a leg whose key fails to parse, or whose type/strike is absent from the
snapshot, is skipped (`continue`), i.e. contributes 0. -/
def leg_contribution (position : Position) (md : MarketData)
    (option_key : String) (entry_price : ℚ) : ℚ :=
  match parse_option_key position option_key with
  | none => 0
  | some d =>
    match option_price md d.option_type d.strike with
    | none => 0
    | some current_price =>
      calculate_leg_pnl entry_price current_price d.action d.quantity
        position.lot_size position.slippage

/-- PositionManager._calculate_position_pnl. -/
def calculate_position_pnl (position : Position) (md : MarketData) : ℚ :=
  (position.entry_prices.map (fun kv => leg_contribution position md kv.1 kv.2)).sum

/-- PositionManager._check_exit_conditions: sequential checks, first match
returns.  The position-type elif chain plus the trailing time check flatten to
this if-chain. -/
def check_exit_conditions (position : Position) (current_timeindex : Int) : Option String :=
  if position.target_pnl > 0 ∧ position.current_pnl ≥ position.target_pnl then
    some "TARGET"
  else if position.stop_loss_pnl < 0 ∧ position.current_pnl ≤ position.stop_loss_pnl then
    some "STOP_LOSS"
  else if position.unlimited_risk = true ∧ position.current_pnl ≤ position.stop_loss_pnl * (1/2) then
    some "UNLIMITED_RISK_PROTECTION"
  else if position.position_type = "IRON_CONDOR" ∧ position.max_profit > 0 ∧
      position.current_pnl ≥ position.max_profit * (1/2) then
    some "EARLY_PROFIT_TARGET"
  else if position.position_type = "BUTTERFLY" ∧ position.max_profit > 0 ∧
      position.current_pnl ≥ position.max_profit * (3/5) then
    some "EARLY_PROFIT_TARGET"
  else if position.position_type = "RATIO_SPREAD" ∧
      position.current_pnl ≤ position.stop_loss_pnl * (3/4) then
    some "RATIO_SPREAD_PROTECTION"
  else if current_timeindex ≥ position.force_close_timeindex then
    some "TIME_BASED"
  else none

/-- Exit price for one leg in PositionManager._close_position: 0.0 for an
unparseable key, the snapshot price when present, else 0.0. -/
def exit_price_for_key (position : Position) (md : MarketData) (option_key : String) : ℚ :=
  match parse_option_key position option_key with
  | none => 0
  | some d => (option_price md d.option_type d.strike).getD 0

/-- PositionManager._close_position: build exit prices for every leg, then the
final P&L over the parseable legs (the exit-price dict lookup recomputes to
`exit_price_for_key` because dict keys are unique). -/
def close_position (position : Position) (md : MarketData)
    (exit_reason : String) (date : String) : Trade :=
  let exit_prices := position.entry_prices.map
    (fun kv => (kv.1, exit_price_for_key position md kv.1))
  let final_pnl := (position.entry_prices.map (fun kv =>
    match parse_option_key position kv.1 with
    | none => 0
    | some d =>
      calculate_leg_pnl kv.2 (exit_price_for_key position md kv.1) d.action d.quantity
        position.lot_size position.slippage)).sum
  { setup_id := position.setup_id
    entry_timeindex := position.entry_timeindex
    exit_timeindex := md.timestamp
    entry_prices := position.entry_prices
    exit_prices := exit_prices
    strikes := position.strikes
    quantity := position.quantity
    pnl := final_pnl
    exit_reason := exit_reason
    date := date
    gamma_pnl := position.gamma_pnl
    theta_pnl := position.theta_pnl
    final_delta := position.current_delta
    rebalance_count := position.rebalance_count }

/-- PositionManager state: insertion-ordered open set plus the id counter. -/
structure PositionManager where
  positions : List (String × Position)
  position_counter : Int
  deriving DecidableEq

/-- PositionManager.add_position. -/
def add_position (pm : PositionManager) (p : Position) : PositionManager × String :=
  let position_id := p.setup_id ++ "_" ++ toString pm.position_counter
  ({ positions := pm.positions ++ [(position_id, p)],
     position_counter := pm.position_counter + 1 }, position_id)

/-- The in-loop mutation `position.current_pnl = self._calculate_position_pnl(...)`. -/
def update_position_pnl (md : MarketData) (p : Position) : Position :=
  { p with current_pnl := calculate_position_pnl p md }

/-- PositionManager.update_positions: recompute every open position's P&L,
close the ones whose exit conditions fire, keep the rest. -/
def update_positions (pm : PositionManager) (md : MarketData) (date : String) :
    PositionManager × List Trade :=
  let updated := pm.positions.map (fun kv => (kv.1, update_position_pnl md kv.2))
  let closed := updated.filterMap (fun kv =>
    match check_exit_conditions kv.2 md.timestamp with
    | some reason => some (close_position kv.2 md reason date)
    | none => none)
  let remaining := updated.filter (fun kv => (check_exit_conditions kv.2 md.timestamp).isNone)
  ({ pm with positions := remaining }, closed)

/-- PositionManager.get_total_pnl. -/
def get_total_pnl (pm : PositionManager) : ℚ :=
  (pm.positions.map (fun kv => kv.2.current_pnl)).sum

/-- The per-position force-close time in check_time_based_closures:
`setup_close_times.get(position.setup_id, position.force_close_timeindex)`
where the dict comprehension keeps the LAST setup with a given id (hence the
reverse before the first-match lookup). -/
def setup_close_time (setups : List TradingSetup) (p : Position) : Int :=
  alookupD (setups.map (fun s => (s.setup_id, s.close_timeindex))).reverse
    p.setup_id p.force_close_timeindex

/-- Whether some open position has reached its setup close time. -/
def time_closure_due (pm : PositionManager) (current_timeindex : Int)
    (setups : List TradingSetup) : Bool :=
  pm.positions.any (fun kv => decide (setup_close_time setups kv.2 ≤ current_timeindex))

/-- PositionManager.check_time_based_closures as written: the body constructs
`MarketData(timestamp=..., spot_price=0.0, option_prices={}, available_strikes=[])`
without the `symbol` argument, which the models.MarketData dataclass requires
(no default), so the first position that reaches its close time raises
TypeError and the exception propagates; no trade is ever produced on that
path.  When no position is due the loop body never runs and the call returns
the empty trade list. -/
def check_time_based_closures (pm : PositionManager) (current_timeindex : Int)
    (setups : List TradingSetup) : Except String (PositionManager × List Trade) :=
  if time_closure_due pm current_timeindex setups then
    Except.error "TypeError: MarketData.__init__ missing required argument: symbol"
  else
    Except.ok (pm, [])

/-- The synthetic snapshot check_time_based_closures tries to build: the given
timestamp, spot 0.0, no option prices, no strikes. -/
def empty_market_data (t : Int) : MarketData :=
  { timestamp := t, symbol := "", spot_price := 0, option_prices := [], available_strikes := [] }

/-- The evidently intended semantics of check_time_based_closures (its comment
says "Create dummy market data for closure", and spec section 4.1 documents the
force-close): every due position is closed TIME_BASED against the synthetic
empty-price snapshot.  The Python body after the MarketData construction is
unreachable as written because the construction raises (see
`check_time_based_closures`). -/
def check_time_based_closures_intended (pm : PositionManager) (current_timeindex : Int)
    (setups : List TradingSetup) : PositionManager × List Trade :=
  let closed := pm.positions.filterMap (fun kv =>
    if setup_close_time setups kv.2 ≤ current_timeindex then
      some (close_position kv.2 (empty_market_data current_timeindex) "TIME_BASED" "")
    else none)
  let remaining := pm.positions.filter
    (fun kv => !(decide (setup_close_time setups kv.2 ≤ current_timeindex)))
  ({ pm with positions := remaining }, closed)

/-- PositionManager.update_gamma_scalping_positions restricted to setups drawn
from the base TradingSetup contract: the `hasattr(setup,
'calculate_gamma_theta_pnl')` capability check finds no gamma-capable setup,
`gamma_setup` stays None for every position, and the loop closes and creates
nothing. -/
def update_gamma_scalping_positions (pm : PositionManager) (_md : MarketData)
    (_setups : List TradingSetup) (_date : String) : PositionManager × List Trade :=
  (pm, [])

/-- BacktestEngine.process_time_interval, the per-tick driver slice: the
Strategy contract (check_entry_condition / create_positions) is an external
collaborator (spec section 6), so `new_positions` stands for the list of
positions the active setups create at this tick, in creation order.  Entries
are added first, then update_positions runs over ALL open positions including
the ones just added, then the gamma-scalping pass, then time-based closures
(whose exception, if raised, propagates and discards the tick's trades). -/
def process_time_interval (pm : PositionManager) (new_positions : List Position)
    (md : MarketData) (setups : List TradingSetup) (date : String) :
    Except String (PositionManager × List Trade) :=
  let pm1 := new_positions.foldl (fun acc p => (add_position acc p).1) pm
  let ut := update_positions pm1 md date
  let gt := update_gamma_scalping_positions ut.1 md setups date
  match check_time_based_closures gt.1 md.timestamp setups with
  | Except.error e => Except.error e
  | Except.ok tb => Except.ok (tb.1, ut.2 ++ gt.2 ++ tb.2)

/-- risk_manager.RiskManager state. -/
structure RiskManager where
  daily_max_loss : ℚ
  daily_pnl : ℚ
  deriving DecidableEq

/-- RiskManager.__init__: stores abs(daily_max_loss). -/
def RiskManager.init (daily_max_loss : ℚ) : RiskManager :=
  { daily_max_loss := pyabs daily_max_loss, daily_pnl := 0 }

/-- RiskManager.check_daily_limit. -/
def check_daily_limit (rm : RiskManager) (current_pnl : ℚ) : Bool :=
  decide (current_pnl ≤ -rm.daily_max_loss)

/-- RiskManager.should_close_all_positions. -/
def should_close_all_positions (rm : RiskManager) (total_pnl : ℚ) : Bool :=
  check_daily_limit rm total_pnl

/-- One loop step of BacktestEngine._calculate_max_drawdown on the state
(cumulative_pnl, peak, max_drawdown). -/
def max_drawdown_step (st : ℚ × ℚ × ℚ) (pnl : ℚ) : ℚ × ℚ × ℚ :=
  let cum := st.1 + pnl
  let peak := if cum > st.2.1 then cum else st.2.1
  let dd := peak - cum
  let mdd := if dd > st.2.2 then dd else st.2.2
  (cum, peak, mdd)

/-- BacktestEngine._calculate_max_drawdown over the trade-ordered P&L list
(the empty-list early return coincides with the fold from (0,0,0)). -/
def calculate_max_drawdown (pnls : List ℚ) : ℚ :=
  (pnls.foldl max_drawdown_step (0, 0, 0)).2.2

/-- Partial sums of a P&L list, beginning with the running total `c`. -/
def cum_from (c : ℚ) : List ℚ → List ℚ
  | [] => [c]
  | p :: rest => c :: cum_from (c + p) rest

/-- The trade-ordered cumulative P&L curve, starting from the initial
peak value 0. -/
def cumulative_curve (pnls : List ℚ) : List ℚ := cum_from 0 pnls

/-- Boolean non-decreasing check on a list of rationals. -/
def nonDecreasing : List ℚ → Bool
  | [] => true
  | [_] => true
  | a :: b :: rest => decide (a ≤ b) && nonDecreasing (b :: rest)

/-- collections.deque(maxlen) append: keep the most recent `maxlen` entries. -/
def dequeAppend {α : Type} (maxlen : Nat) (l : List α) (x : α) : List α :=
  let l2 := l ++ [x]
  if maxlen < l2.length then l2.drop (l2.length - maxlen) else l2

/-- MarketRegimeDetector._calculate_average_option_price: mean of all positive
option prices across types and strikes (order-independent, so the dict
iteration order is immaterial). -/
def calculate_average_option_price (option_prices : List (String × List (ℚ × ℚ))) : ℚ :=
  let all_prices := ((option_prices.map (fun kv => kv.2.map Prod.snd)).flatten).filter
    (fun p => decide (p > 0))
  if all_prices.length = 0 then 0 else all_prices.sum / (all_prices.length : ℚ)

/-- MarketRegimeDetector._calculate_price_velocity: mean percentage change
over the most recent min(5, n-1) steps. -/
def calculate_price_velocity (price_history : List ℚ) : ℚ :=
  if price_history.length < 2 then 0
  else
    let r := price_history.reverse
    let periods_to_check := min 5 (price_history.length - 1)
    let total_change := ((List.range periods_to_check).map
      (fun i => (r.getD i 0 - r.getD (i+1) 0) / r.getD (i+1) 0)).sum
    total_change / (periods_to_check : ℚ)

/-- MarketRegimeDetector._calculate_trend_strength: least-squares slope of
price against index over the whole window, normalized by the mean price,
scaled by 1000 and clamped to [-1, 1]; 0 when fewer than 10 samples. -/
def calculate_trend_strength (price_history : List ℚ) : ℚ :=
  if price_history.length < 10 then 0
  else
    let prices := price_history
    let n := prices.length
    let x_sum : ℚ := ((List.range n).map (fun i => (i : ℚ))).sum
    let y_sum : ℚ := prices.sum
    let xy_sum : ℚ := ((List.range n).map (fun (i : Nat) => (i : ℚ) * prices.getD i 0)).sum
    let x2_sum : ℚ := ((List.range n).map (fun (i : Nat) => (i : ℚ) * (i : ℚ))).sum
    let slope := ((n : ℚ) * xy_sum - x_sum * y_sum) / ((n : ℚ) * x2_sum - x_sum * x_sum)
    let avg_price := y_sum / (n : ℚ)
    let normalized_slope := if avg_price > 0 then slope / avg_price else 0
    pymax (-1) (pymin 1 (normalized_slope * 1000))

/-- The confidence/regime chain of MarketRegimeDetector._classify_market_regime
before the stability boost (thresholds 0.25, 0.10, 0.3, 0.1, 0.002 as exact
rationals). -/
def classify_regime_base (trend_strength estimated_volatility price_velocity : ℚ) :
    String × ℚ :=
  if pyabs trend_strength > 3/10 then
    ((if trend_strength > 0 then "TRENDING_UP" else "TRENDING_DOWN"),
      pymin (9/10) (pyabs trend_strength + 1/5))
  else if estimated_volatility > 1/4 then
    ("HIGH_VOL", pymin (4/5) (estimated_volatility / (1/4) * (1/2) + 3/10))
  else if estimated_volatility < 1/10 then
    if pyabs trend_strength > (1/10) * 2 then
      ((if trend_strength > 0 then "TRENDING_UP" else "TRENDING_DOWN"),
        pymin (7/10) (pyabs trend_strength + 1/5))
    else
      ("LOW_VOL", pymin (4/5) ((1/10 - estimated_volatility) / (1/10) * (1/2) + 3/10))
  else
    if pyabs trend_strength > (1/10) * (3/2) then
      ((if trend_strength > 0 then "TRENDING_UP" else "TRENDING_DOWN"),
        pymin (4/5) (pyabs trend_strength))
    else if pyabs trend_strength < 1/10 ∧ pyabs price_velocity < 1/500 then
      ("RANGING", pymin (7/10) ((1/10 - pyabs trend_strength) / (1/10) * (2/5) + 3/10))
    else
      ("RANGING", 3/10)

/-- MarketRegimeDetector._classify_market_regime: UNKNOWN below 10 samples,
otherwise the base classification with confidence boosted by +0.1 (capped at
1.0) when the regime equals the previous one. -/
def classify_market_regime (n : Nat) (trend_strength estimated_volatility price_velocity : ℚ)
    (previous_regime : String) : String × ℚ :=
  if n < 10 then ("UNKNOWN", 0)
  else
    let rc := classify_regime_base trend_strength estimated_volatility price_velocity
    if rc.1 = previous_regime then (rc.1, pymin 1 (rc.2 + 1/10)) else rc

/-- MarketRegimeDetector state (the per-5-minute time_effects aggregation and
the cross-symbol correlation field are write-only with respect to every field
the claims read, and are omitted). -/
structure DetectorState where
  lookback_periods : Nat
  price_history : List ℚ
  timestamp_history : List Int
  option_price_history : List ℚ
  current_regime : String
  regime_confidence : ℚ
  price_velocity : ℚ
  trend_strength : ℚ
  estimated_volatility : ℚ
  previous_regime : String
  regime_change_count : Nat
  deriving DecidableEq

/-- MarketRegimeDetector.__init__ with the default lookback of 60. -/
def DetectorState.init : DetectorState :=
  { lookback_periods := 60, price_history := [], timestamp_history := [],
    option_price_history := [], current_regime := "UNKNOWN", regime_confidence := 0,
    price_velocity := 0, trend_strength := 0, estimated_volatility := 0,
    previous_regime := "UNKNOWN", regime_change_count := 0 }

/-- MarketRegimeDetector.update_market_data.  The volatility estimate
(_calculate_volatility_estimate) takes stdevs of math.log returns and scales
by math.sqrt — transcendental floating-point operations with no exact rational
embedding — so it is abstracted as the parameter `volatility_estimate` of the
price and option-price histories; the theorems below only ever use
classification branches that never read the volatility value (see
`classify_regime_base_trend_ignores_vol`).  The write-back of derived fields
onto the snapshot feeds the engine, not this state, and is omitted. -/
def update_market_data (volatility_estimate : List ℚ → List ℚ → ℚ)
    (s : DetectorState) (md : MarketData) : DetectorState :=
  let price_history := dequeAppend s.lookback_periods s.price_history md.spot_price
  let timestamp_history := dequeAppend s.lookback_periods s.timestamp_history md.timestamp
  let option_price_history :=
    if md.option_prices.isEmpty then s.option_price_history
    else dequeAppend s.lookback_periods s.option_price_history
      (calculate_average_option_price md.option_prices)
  if price_history.length < 2 then
    { s with
        price_history := price_history
        timestamp_history := timestamp_history
        option_price_history := option_price_history }
  else
    let price_velocity := calculate_price_velocity price_history
    let trend_strength := calculate_trend_strength price_history
    let estimated_volatility := volatility_estimate price_history option_price_history
    let previous_regime := s.current_regime
    let rc := classify_market_regime price_history.length trend_strength
      estimated_volatility price_velocity previous_regime
    let regime_change_count :=
      if rc.1 ≠ previous_regime ∧ previous_regime ≠ "UNKNOWN" then
        s.regime_change_count + 1
      else s.regime_change_count
    { s with
        price_history := price_history
        timestamp_history := timestamp_history
        option_price_history := option_price_history
        price_velocity := price_velocity
        trend_strength := trend_strength
        estimated_volatility := estimated_volatility
        previous_regime := previous_regime
        current_regime := rc.1
        regime_confidence := rc.2
        regime_change_count := regime_change_count }

/-- The three multiplicative factors of one regime entry of
DynamicSetupManager._initialize_regime_configs (the description strings are
never read). -/
structure RegimeConfig where
  target_pct_multiplier : ℚ
  stop_loss_pct_multiplier : ℚ
  scalping_price_multiplier : ℚ
  deriving DecidableEq

/-- DynamicSetupManager._initialize_regime_configs. -/
def regime_configs (regime : String) : Option RegimeConfig :=
  if regime = "TRENDING_UP" then
    some { target_pct_multiplier := 6/5, stop_loss_pct_multiplier := 4/5,
           scalping_price_multiplier := 11/10 }
  else if regime = "TRENDING_DOWN" then
    some { target_pct_multiplier := 6/5, stop_loss_pct_multiplier := 4/5,
           scalping_price_multiplier := 11/10 }
  else if regime = "HIGH_VOL" then
    some { target_pct_multiplier := 3/2, stop_loss_pct_multiplier := 13/10,
           scalping_price_multiplier := 13/10 }
  else if regime = "LOW_VOL" then
    some { target_pct_multiplier := 4/5, stop_loss_pct_multiplier := 9/10,
           scalping_price_multiplier := 4/5 }
  else if regime = "RANGING" then
    some { target_pct_multiplier := 1, stop_loss_pct_multiplier := 11/10,
           scalping_price_multiplier := 9/10 }
  else none

/-- DynamicSetupManager.adjust_parameters_for_regime: deep-copy the setup and
multiply target_pct, stop_loss_pct and scalping_price by the regime's factors
(each `in config` membership check holds for all five configs). -/
def adjust_parameters_for_regime (setup : TradingSetup) (regime : String) : TradingSetup :=
  match regime_configs regime with
  | none => setup
  | some config =>
    { setup with
      target_pct := setup.target_pct * config.target_pct_multiplier,
      stop_loss_pct := setup.stop_loss_pct * config.stop_loss_pct_multiplier,
      scalping_price := setup.scalping_price * config.scalping_price_multiplier }

/-- The strategy_regime_compatibility table of
DynamicSetupManager._should_pause_strategy_for_regime, in dict order (the
first key found as a substring of the lowered setup id wins). -/
def strategy_regime_compatibility : List (String × List String) :=
  [("straddle", ["RANGING", "LOW_VOL"]),
   ("hedged_straddle", ["RANGING", "LOW_VOL", "HIGH_VOL"]),
   ("ce_scalping", ["TRENDING_UP", "HIGH_VOL"]),
   ("pe_scalping", ["TRENDING_DOWN", "HIGH_VOL"]),
   ("iron_condor", ["RANGING", "LOW_VOL"]),
   ("butterfly", ["LOW_VOL", "RANGING"]),
   ("vertical_spread", ["TRENDING_UP", "TRENDING_DOWN"]),
   ("ratio_spread", ["RANGING", "LOW_VOL"])]

/-- DynamicSetupManager._should_pause_strategy_for_regime. -/
def should_pause_strategy_for_regime (setup_id regime : String) : Bool :=
  match strategy_regime_compatibility.find?
    (fun kv => containsSub (strToLower setup_id) kv.1) with
  | some kv => !(kv.2.contains regime)
  | none => false

/-- Python set.add on the list model of the paused set. -/
def setAdd (s : List String) (x : String) : List String :=
  if s.contains x then s else s ++ [x]

/-- Python set.discard on the list model of the paused set. -/
def setRemove (s : List String) (x : String) : List String :=
  s.filter (fun y => y ≠ x)

/-- DynamicSetupManager state (the performance-tracking histories and the
adjustment log are append-only and never read back by the adjustment logic;
they are omitted). -/
structure DynamicSetupManager where
  base_setups : List TradingSetup
  adjusted_setups : List TradingSetup
  current_regime : String
  regime_confidence : ℚ
  paused_strategies : List String
  deriving DecidableEq

/-- Placeholder setup used only as the (never-reached) list-index default. -/
def dummy_setup : TradingSetup :=
  { setup_id := "", target_pct := 0, stop_loss_pct := 0, entry_timeindex := 0 }

/-- One iteration of the loop in DynamicSetupManager._adjust_setups_for_regime:
pause the strategy for an incompatible regime, otherwise unpause it and
recompute adjusted_setups[i] from base_setups[i]. -/
def dsm_step (regime : String) (acc : DynamicSetupManager) (i : Nat) : DynamicSetupManager :=
  let base := acc.base_setups.getD i dummy_setup
  if should_pause_strategy_for_regime base.setup_id regime then
    { acc with paused_strategies := setAdd acc.paused_strategies base.setup_id }
  else
    { acc with
      paused_strategies := setRemove acc.paused_strategies base.setup_id,
      adjusted_setups := acc.adjusted_setups.set i (adjust_parameters_for_regime base regime) }

/-- DynamicSetupManager._adjust_setups_for_regime: no-op for a regime without
a config, otherwise the indexed loop over base_setups. -/
def adjust_setups_for_regime (m : DynamicSetupManager) (regime : String) : DynamicSetupManager :=
  match regime_configs regime with
  | none => m
  | some _ => (List.range m.base_setups.length).foldl (dsm_step regime) m

/-- DynamicSetupManager.update_market_regime: record the regime and
confidence, then adjust the setups when confidence is at least 0.6 (the
regime-change logging and accuracy bookkeeping write fields never read by the
adjustment logic). -/
def update_market_regime (m : DynamicSetupManager) (regime : String)
    (confidence : ℚ) : DynamicSetupManager :=
  let m1 := { m with current_regime := regime, regime_confidence := confidence }
  if confidence ≥ 3/5 then adjust_setups_for_regime m1 regime else m1

/-- `n` consecutive update_market_regime calls delivering the same regime and
confidence. -/
def iterate_update_regime (regime : String) (confidence : ℚ) :
    Nat → DynamicSetupManager → DynamicSetupManager
  | 0, m => m
  | Nat.succ k, m => iterate_update_regime regime confidence k
      (update_market_regime m regime confidence)

/-! Concrete inputs used by counterexamples and witnesses. -/

/-- A position whose target and stop-loss fields are set; its current P&L
meets the target threshold. -/
def c1pos : Position :=
  { setup_id := "s", entry_timeindex := 0, entry_prices := [], strikes := [],
    quantity := 1, target_pnl := 50, stop_loss_pnl := -30, current_pnl := 60 }

/-- A fresh SELL position entered at tick 100 with a stop loss that its very
first mark-to-market breaches (entry credit 5, market price 7, lot 100). -/
def c5pos : Position :=
  { setup_id := "s1", entry_timeindex := 100, entry_prices := [("CE_100.0", 5)],
    strikes := [("CE", 100)], quantity := 1, lot_size := 100,
    target_pnl := 50, stop_loss_pnl := -100, slippage := 0 }

/-- The snapshot of tick 100: the CE 100 option trades at 7. -/
def c5md : MarketData :=
  { timestamp := 100, symbol := "QQQ", spot_price := 100,
    option_prices := [("CE", [(100, 7)])], available_strikes := [100] }

/-- An empty position manager. -/
def empty_pm : PositionManager := { positions := [], position_counter := 0 }

/-- The trade produced when `c5pos` is stopped out on its entry tick. -/
def c5_closed_trade : Trade :=
  close_position (update_position_pnl c5md c5pos) c5md "STOP_LOSS" ""

/-- The full result of processing tick 100 with `c5pos` created at that tick. -/
def c5_result_pair : PositionManager × List Trade :=
  ({ positions := [], position_counter := 1 }, [c5_closed_trade])

/-- Volatility estimate stub for runs that only exercise the trend branch of
the classifier, which never reads the volatility value (see
`classify_regime_base_trend_ignores_vol`). -/
def vol_zero : List ℚ → List ℚ → ℚ := fun _ _ => 0

/-- Eleven spot prices: ten on an exact line of slope 0.6 around mean 1000
(trend strength exactly 0.6 at the tenth sample), then a drop to 997 that
pulls the trend strength down to 3450/10997 (about 0.314, still trending). -/
def c6prices : List ℚ :=
  [9973/10, 9979/10, 9985/10, 9991/10, 9997/10, 10003/10, 10009/10, 10015/10,
   10021/10, 10027/10, 997]

/-- A plain snapshot carrying just a spot price. -/
def c6snap (p : ℚ) : MarketData :=
  { timestamp := 0, symbol := "QQQ", spot_price := p, option_prices := [],
    available_strikes := [] }

/-- The detector state after feeding the first `k` of the `c6prices`
snapshots. -/
def c6run (k : Nat) : DetectorState :=
  ((c6prices.take k).map c6snap).foldl (update_market_data vol_zero) DetectorState.init

/-- The detector state after the first 1 of the `c6prices` snapshots. -/
def c6state1 : DetectorState :=
  { lookback_periods := 60, price_history := [9973/10],
    timestamp_history := [0], option_price_history := [],
    current_regime := "UNKNOWN", regime_confidence := 0,
    price_velocity := 0, trend_strength := 0,
    estimated_volatility := 0, previous_regime := "UNKNOWN",
    regime_change_count := 0 }

/-- The detector state after the first 2 of the `c6prices` snapshots. -/
def c6state2 : DetectorState :=
  { lookback_periods := 60, price_history := [9973/10, 9979/10],
    timestamp_history := [0, 0], option_price_history := [],
    current_regime := "UNKNOWN", regime_confidence := 0,
    price_velocity := 6/9973, trend_strength := 0,
    estimated_volatility := 0, previous_regime := "UNKNOWN",
    regime_change_count := 0 }

/-- The detector state after the first 3 of the `c6prices` snapshots. -/
def c6state3 : DetectorState :=
  { lookback_periods := 60, price_history := [9973/10, 9979/10, 1997/2],
    timestamp_history := [0, 0, 0], option_price_history := [],
    current_regime := "UNKNOWN", regime_confidence := 0,
    price_velocity := 59856/99520567, trend_strength := 0,
    estimated_volatility := 0, previous_regime := "UNKNOWN",
    regime_change_count := 0 }

/-- The detector state after the first 4 of the `c6prices` snapshots. -/
def c6state4 : DetectorState :=
  { lookback_periods := 60, price_history := [9973/10, 9979/10, 1997/2, 9991/10],
    timestamp_history := [0, 0, 0, 0], option_price_history := [],
    current_regime := "UNKNOWN", regime_confidence := 0,
    price_velocity := 597482574/993712861495, trend_strength := 0,
    estimated_volatility := 0, previous_regime := "UNKNOWN",
    regime_change_count := 0 }

/-- The detector state after the first 5 of the `c6prices` snapshots. -/
def c6state5 : DetectorState :=
  { lookback_periods := 60, price_history := [9973/10, 9979/10, 1997/2, 9991/10, 9997/10],
    timestamp_history := [0, 0, 0, 0, 0], option_price_history := [],
    current_regime := "UNKNOWN", regime_confidence := 0,
    price_velocity := 5967655589868/9928185199196545, trend_strength := 0,
    estimated_volatility := 0, previous_regime := "UNKNOWN",
    regime_change_count := 0 }

/-- The detector state after the first 6 of the `c6prices` snapshots. -/
def c6state6 : DetectorState :=
  { lookback_periods := 60, price_history := [9973/10, 9979/10, 1997/2, 9991/10, 9997/10, 10003/10],
    timestamp_history := [0, 0, 0, 0, 0, 0], option_price_history := [],
    current_regime := "UNKNOWN", regime_confidence := 0,
    price_velocity := 298203722922820854/496260337181839301825, trend_strength := 0,
    estimated_volatility := 0, previous_regime := "UNKNOWN",
    regime_change_count := 0 }

/-- The detector state after the first 7 of the `c6prices` snapshots. -/
def c6state7 : DetectorState :=
  { lookback_periods := 60, price_history := [9973/10, 9979/10, 1997/2, 9991/10, 9997/10, 10003/10, 10009/10],
    timestamp_history := [0, 0, 0, 0, 0, 0, 0], option_price_history := [],
    current_regime := "UNKNOWN", regime_confidence := 0,
    price_velocity := 298921133708365494/497753148784712577575, trend_strength := 0,
    estimated_volatility := 0, previous_regime := "UNKNOWN",
    regime_change_count := 0 }

/-- The detector state after the first 8 of the `c6prices` snapshots. -/
def c6state8 : DetectorState :=
  { lookback_periods := 60, price_history := [9973/10, 9979/10, 1997/2, 9991/10, 9997/10, 10003/10, 10009/10, 2003/2],
    timestamp_history := [0, 0, 0, 0, 0, 0, 0, 0], option_price_history := [],
    current_regime := "UNKNOWN", regime_confidence := 0,
    price_velocity := 299639838162004374/499249550675036395325, trend_strength := 0,
    estimated_volatility := 0, previous_regime := "UNKNOWN",
    regime_change_count := 0 }

/-- The detector state after the first 9 of the `c6prices` snapshots. -/
def c6state9 : DetectorState :=
  { lookback_periods := 60, price_history := [9973/10, 9979/10, 1997/2, 9991/10, 9997/10, 10003/10, 10009/10, 2003/2, 10021/10],
    timestamp_history := [0, 0, 0, 0, 0, 0, 0, 0, 0], option_price_history := [],
    current_regime := "UNKNOWN", regime_confidence := 0,
    price_velocity := 300359837838004374/500749549325036504675, trend_strength := 0,
    estimated_volatility := 0, previous_regime := "UNKNOWN",
    regime_change_count := 0 }

/-- The detector state after the first 10 of the `c6prices` snapshots. -/
def c6state10 : DetectorState :=
  { lookback_periods := 60, price_history := [9973/10, 9979/10, 1997/2, 9991/10, 9997/10, 10003/10, 10009/10, 2003/2, 10021/10, 10027/10],
    timestamp_history := [0, 0, 0, 0, 0, 0, 0, 0, 0, 0], option_price_history := [],
    current_regime := "TRENDING_UP", regime_confidence := 4/5,
    price_velocity := 301081134291565494/502253151214712322425, trend_strength := 3/5,
    estimated_volatility := 0, previous_regime := "UNKNOWN",
    regime_change_count := 0 }

/-- The detector state after the first 11 of the `c6prices` snapshots. -/
def c6state11 : DetectorState :=
  { lookback_periods := 60, price_history := [9973/10, 9979/10, 1997/2, 9991/10, 9997/10, 10003/10, 10009/10, 2003/2, 10021/10, 10027/10, 997],
    timestamp_history := [0, 0, 0, 0, 0, 0, 0, 0, 0, 0, 0], option_price_history := [],
    current_regime := "TRENDING_UP", regime_confidence := 67491/109970,
    price_velocity := (-331225150115474961/503760362831841598175), trend_strength := 3450/10997,
    estimated_volatility := 0, previous_regime := "TRENDING_UP",
    regime_change_count := 0 }

/-- A one-leg simple SELL position (entry credit 5 on key "CE_100.0"). -/
def c7pos : Position :=
  { setup_id := "s7", entry_timeindex := 0, entry_prices := [("CE_100.0", 5)],
    strikes := [], quantity := 1 }

/-- A snapshot pricing only CE 100 (no PE side at all). -/
def c7md : MarketData :=
  { timestamp := 10, symbol := "QQQ", spot_price := 100,
    option_prices := [("CE", [(100, 4)])], available_strikes := [100] }

/-- A manager holding just `c7pos`. -/
def c7pm : PositionManager := { positions := [("p0", c7pos)], position_counter := 1 }

/-- A one-leg SELL position whose force-close time is 50. -/
def c9pos : Position :=
  { setup_id := "s9", entry_timeindex := 0, entry_prices := [("CE_100.0", 5)],
    strikes := [], quantity := 1, force_close_timeindex := 50 }

/-- A manager holding just `c9pos`. -/
def c9pm : PositionManager := { positions := [("p9", c9pos)], position_counter := 1 }

/-- A base setup whose id matches no entry of the strategy compatibility
table, so it is never paused. -/
def c10setup : TradingSetup :=
  { setup_id := "alpha_1", target_pct := 30, stop_loss_pct := 40,
    entry_timeindex := 60, scalping_price := 2/5 }

/-- A fresh dynamic setup manager over the single base setup `c10setup`. -/
def c10m : DynamicSetupManager :=
  { base_setups := [c10setup], adjusted_setups := [c10setup],
    current_regime := "UNKNOWN", regime_confidence := 0, paused_strategies := [] }

/-! ## Helper lemmas -/

theorem pyabs_eq_abs (a : ℚ) : pyabs a = abs a := by
  unfold pyabs
  rcases lt_or_ge a 0 with h | h
  · rw [if_pos h, abs_of_neg h]
  · rw [if_neg (not_lt.mpr h), abs_of_nonneg h]

theorem le_pymin (a b c : ℚ) (h1 : a ≤ b) (h2 : a ≤ c) : a ≤ pymin b c := by
  unfold pymin
  split <;> assumption

theorem pymin_le_pymin_right (a b c : ℚ) (h : b ≤ c) : pymin a b ≤ pymin a c := by
  unfold pymin
  split <;> split <;> linarith

/-- Update step 1 of the `c6prices` run. -/
theorem c6_step1 : update_market_data vol_zero DetectorState.init (c6snap (9973/10)) = c6state1 := by
  decide

/-- Update step 2 of the `c6prices` run. -/
theorem c6_step2 : update_market_data vol_zero c6state1 (c6snap (9979/10)) = c6state2 := by
  decide

/-- Update step 3 of the `c6prices` run. -/
theorem c6_step3 : update_market_data vol_zero c6state2 (c6snap (9985/10)) = c6state3 := by
  decide

/-- Update step 4 of the `c6prices` run. -/
theorem c6_step4 : update_market_data vol_zero c6state3 (c6snap (9991/10)) = c6state4 := by
  decide

/-- Update step 5 of the `c6prices` run. -/
theorem c6_step5 : update_market_data vol_zero c6state4 (c6snap (9997/10)) = c6state5 := by
  decide

/-- Update step 6 of the `c6prices` run. -/
theorem c6_step6 : update_market_data vol_zero c6state5 (c6snap (10003/10)) = c6state6 := by
  decide

/-- Update step 7 of the `c6prices` run. -/
theorem c6_step7 : update_market_data vol_zero c6state6 (c6snap (10009/10)) = c6state7 := by
  decide

/-- Update step 8 of the `c6prices` run. -/
theorem c6_step8 : update_market_data vol_zero c6state7 (c6snap (10015/10)) = c6state8 := by
  decide

/-- Update step 9 of the `c6prices` run. -/
theorem c6_step9 : update_market_data vol_zero c6state8 (c6snap (10021/10)) = c6state9 := by
  decide

/-- Update step 10 of the `c6prices` run. -/
theorem c6_step10 : update_market_data vol_zero c6state9 (c6snap (10027/10)) = c6state10 := by
  decide

/-- Update step 11 of the `c6prices` run. -/
theorem c6_step11 : update_market_data vol_zero c6state10 (c6snap (997)) = c6state11 := by
  decide

/-- Feeding the first ten snapshots lands on the explicit state `c6state10`. -/
theorem c6run_ten : c6run 10 = c6state10 := by
  show ((c6prices.take 10).map c6snap).foldl (update_market_data vol_zero) DetectorState.init =
    c6state10
  rw [show (c6prices.take 10).map c6snap =
    [c6snap (9973/10), c6snap (9979/10), c6snap (9985/10), c6snap (9991/10), c6snap (9997/10),
     c6snap (10003/10), c6snap (10009/10), c6snap (10015/10), c6snap (10021/10),
     c6snap (10027/10)] from rfl]
  simp only [List.foldl_cons, List.foldl_nil]
  rw [c6_step1, c6_step2, c6_step3, c6_step4, c6_step5, c6_step6, c6_step7, c6_step8, c6_step9,
    c6_step10]

/-- Feeding all eleven snapshots lands on the explicit state `c6state11`. -/
theorem c6run_eleven : c6run 11 = c6state11 := by
  show ((c6prices.take 11).map c6snap).foldl (update_market_data vol_zero) DetectorState.init =
    c6state11
  rw [show (c6prices.take 11).map c6snap =
    [c6snap (9973/10), c6snap (9979/10), c6snap (9985/10), c6snap (9991/10), c6snap (9997/10),
     c6snap (10003/10), c6snap (10009/10), c6snap (10015/10), c6snap (10021/10),
     c6snap (10027/10), c6snap 997] from rfl]
  simp only [List.foldl_cons, List.foldl_nil]
  rw [c6_step1, c6_step2, c6_step3, c6_step4, c6_step5, c6_step6, c6_step7, c6_step8, c6_step9,
    c6_step10, c6_step11]

/-! ## Claim theorems -/

/-- C1: inside `_check_exit_conditions` the target test comes first, so any
position whose P&L satisfies the target condition (target_pnl > 0 and
current_pnl at least target_pnl) is closed with reason TARGET no matter what
its stop-loss fields hold; in particular this covers the claim's (over the
reals unsatisfiable) case of a P&L that also satisfies the stop-loss
condition. -/
theorem c1_exit_priority_target_first (p : Position) (t : Int)
    (htarget : p.target_pnl > 0) (hpnl : p.current_pnl ≥ p.target_pnl) :
    check_exit_conditions p t = some "TARGET" := by
  unfold check_exit_conditions
  rw [if_pos ⟨htarget, hpnl⟩]

/-- Witness for C1 at a concrete position with both thresholds set. -/
theorem c1_witness :
    (c1pos.target_pnl > 0 ∧ c1pos.current_pnl ≥ c1pos.target_pnl ∧
      c1pos.stop_loss_pnl < 0) ∧
    check_exit_conditions c1pos 100 = some "TARGET" :=
  ⟨by decide,
   c1_exit_priority_target_first c1pos 100 (by decide)
     (by decide)⟩

/-- C2: for positive quantity and lot size the leg P&L of
`_calculate_leg_pnl` is strictly decreasing in the slippage parameter, for
every action string (the SELL/SHORT branch and the BUY/other branch alike). -/
theorem c2_leg_pnl_strictly_decreasing_in_slippage
    (entry_price current_price : ℚ) (action : String) (quantity lot_size : Int)
    (s1 s2 : ℚ) (hq : 0 < quantity) (hlot : 0 < lot_size) (hs : s1 < s2) :
    calculate_leg_pnl entry_price current_price action quantity lot_size s2 <
      calculate_leg_pnl entry_price current_price action quantity lot_size s1 := by
  have hq' : (0 : ℚ) < (quantity : Int) := by exact_mod_cast hq
  have hlot' : (0 : ℚ) < (lot_size : Int) := by exact_mod_cast hlot
  have hql : (0 : ℚ) < ((quantity : Int) : ℚ) * ((lot_size : Int) : ℚ) :=
    mul_pos hq' hlot'
  unfold calculate_leg_pnl
  split
  · nlinarith [mul_pos hql (sub_pos.mpr hs)]
  · nlinarith [mul_pos hql (sub_pos.mpr hs)]

/-- Witness for C2: concrete SELL and BUY legs, slippage raised from 0 to
1/100. -/
theorem c2_witness :
    ((0:Int) < 1 ∧ (0:Int) < 100 ∧ (0:ℚ) < 1/100) ∧
    calculate_leg_pnl 5 3 "SELL" 1 100 (1/100) < calculate_leg_pnl 5 3 "SELL" 1 100 0 ∧
    calculate_leg_pnl 5 3 "BUY" 1 100 (1/100) < calculate_leg_pnl 5 3 "BUY" 1 100 0 :=
  ⟨by decide,
   c2_leg_pnl_strictly_decreasing_in_slippage 5 3 "SELL" 1 100 0 (1/100)
     (by decide) (by decide) (by decide),
   c2_leg_pnl_strictly_decreasing_in_slippage 5 3 "BUY" 1 100 0 (1/100)
     (by decide) (by decide) (by decide)⟩

/-- C3: `should_close_all_positions(total_pnl)` is true exactly when
total_pnl is at most minus the absolute value of the constructor argument;
in particular daily_max_loss = 1000 and total_pnl = -1001 trigger it. -/
theorem c3_should_close_all_iff :
    (∀ input total : ℚ,
      (should_close_all_positions (RiskManager.init input) total = true ↔
        total ≤ -(abs input))) ∧
    should_close_all_positions (RiskManager.init 1000) (-1001) = true := by
  constructor
  · intro input total
    unfold should_close_all_positions check_daily_limit RiskManager.init
    rw [decide_eq_true_iff]
    dsimp only
    rw [pyabs_eq_abs]
  · decide

/-- The max-drawdown accumulator never decreases along the fold. -/
theorem mdd_foldl_mono (l : List ℚ) (st : ℚ × ℚ × ℚ) :
    st.2.2 ≤ (l.foldl max_drawdown_step st).2.2 := by
  induction l generalizing st with
  | nil => exact le_refl _
  | cons a l ih =>
    have hstep : st.2.2 ≤ (max_drawdown_step st a).2.2 := by
      show st.2.2 ≤ if ((if st.1 + a > st.2.1 then st.1 + a else st.2.1) - (st.1 + a)) > st.2.2
          then ((if st.1 + a > st.2.1 then st.1 + a else st.2.1) - (st.1 + a)) else st.2.2
      split <;> split
      all_goals first
      | exact le_of_lt (by assumption)
      | exact le_refl _
    calc st.2.2 ≤ (max_drawdown_step st a).2.2 := hstep
      _ ≤ _ := ih (max_drawdown_step st a)

/-- Along a fold from a peak-equals-cum state over nonnegative P&Ls, the
drawdown accumulator stays 0. -/
theorem mdd_foldl_nonneg_zero (l : List ℚ) (cum : ℚ) (h : ∀ p ∈ l, 0 ≤ p) :
    (l.foldl max_drawdown_step (cum, cum, 0)).2.2 = 0 := by
  induction l generalizing cum with
  | nil => rfl
  | cons a l ih =>
    have ha : 0 ≤ a := h a (List.mem_cons_self a l)
    have hstep : max_drawdown_step (cum, cum, 0) a = (cum + a, cum + a, 0) := by
      show (cum + a, (if cum + a > cum then cum + a else cum),
          if (if cum + a > cum then cum + a else cum) - (cum + a) > 0 then
            (if cum + a > cum then cum + a else cum) - (cum + a) else 0) =
        (cum + a, cum + a, 0)
      by_cases hc : cum + a > cum
      · rw [if_pos hc]
        have h0 : ¬ (cum + a - (cum + a) > (0:ℚ)) := by simp
        rw [if_neg h0]
      · have ha0 : a = 0 := le_antisymm (by linarith [not_lt.mp hc]) ha
        subst ha0
        rw [if_neg hc]
        have h0 : ¬ (cum - (cum + 0) > (0:ℚ)) := by simp
        rw [if_neg h0]
        simp
    rw [List.foldl_cons, hstep]
    exact ih (cum + a) (fun p hp => h p (List.mem_cons_of_mem a hp))

/-- A non-decreasing cumulative curve from c forces every P&L nonnegative. -/
theorem nonDecreasing_cum_from (l : List ℚ) (c : ℚ)
    (h : nonDecreasing (cum_from c l) = true) : ∀ p ∈ l, 0 ≤ p := by
  induction l generalizing c with
  | nil => intro p hp; cases hp
  | cons a l ih =>
    intro p hp
    have hexp : cum_from c (a :: l) = c :: cum_from (c + a) l := rfl
    rw [hexp] at h
    have hhead : ∃ t, cum_from (c + a) l = (c + a) :: t := by
      cases l with
      | nil => exact ⟨[], rfl⟩
      | cons b l' => exact ⟨cum_from (c + a + b) l', rfl⟩
    obtain ⟨t, ht⟩ := hhead
    rw [ht] at h
    have h2 : decide (c ≤ c + a) = true ∧ nonDecreasing ((c + a) :: t) = true := by
      simpa [nonDecreasing] using h
    rcases List.mem_cons.mp hp with rfl | hp2
    · have := of_decide_eq_true h2.1
      linarith
    · exact ih (c + a) (by rw [ht]; exact h2.2) p hp2

/-- C8: the maximum drawdown of `_calculate_max_drawdown` is nonnegative for
every trade-ordered P&L list, and it is 0 whenever the cumulative P&L curve
(which starts at the initial peak 0) is non-decreasing. -/
theorem c8_drawdown_nonneg_and_zero_on_nondecreasing (pnls : List ℚ) :
    0 ≤ calculate_max_drawdown pnls ∧
    (nonDecreasing (cumulative_curve pnls) = true → calculate_max_drawdown pnls = 0) := by
  constructor
  · have := mdd_foldl_mono pnls (0, 0, 0)
    simpa [calculate_max_drawdown] using this
  · intro h
    have hpos := nonDecreasing_cum_from pnls 0 h
    unfold calculate_max_drawdown
    exact mdd_foldl_nonneg_zero pnls 0 hpos

/-- Witness for C8 on the non-decreasing list [1, 2]. -/
theorem c8_witness :
    0 ≤ calculate_max_drawdown [1, 2] ∧ calculate_max_drawdown [1, 2] = 0 :=
  ⟨(c8_drawdown_nonneg_and_zero_on_nondecreasing [1, 2]).1,
   (c8_drawdown_nonneg_and_zero_on_nondecreasing [1, 2]).2 (by decide)⟩

/-- The open set after update_positions: every position remarked, exits
filtered out. -/
theorem update_positions_positions (pm : PositionManager) (md : MarketData) (date : String) :
    (update_positions pm md date).1.positions =
      (pm.positions.map (fun kv => (kv.1, update_position_pnl md kv.2))).filter
        (fun kv => (check_exit_conditions kv.2 md.timestamp).isNone) := rfl

/-- The trades returned by update_positions. -/
theorem update_positions_trades (pm : PositionManager) (md : MarketData) (date : String) :
    (update_positions pm md date).2 =
      (pm.positions.map (fun kv => (kv.1, update_position_pnl md kv.2))).filterMap
        (fun kv =>
          match check_exit_conditions kv.2 md.timestamp with
          | some reason => some (close_position kv.2 md reason date)
          | none => none) := rfl

/-- Recomputing a position's P&L ignores the stored current_pnl, so the
in-loop mutation does not perturb later recomputations. -/
theorem calculate_position_pnl_update (p : Position) (md md2 : MarketData) :
    calculate_position_pnl (update_position_pnl md p) md2 = calculate_position_pnl p md2 := rfl

/-- C4: after an update against the latest snapshot, `get_total_pnl` equals
the sum over the remaining open positions of their P&L independently
recomputed from their leg entry prices and that snapshot.  The manager state
is arbitrary, so this holds after any prior sequence of additions and
updates. -/
theorem c4_total_pnl_conservation (pm : PositionManager) (md : MarketData) (date : String) :
    get_total_pnl (update_positions pm md date).1 =
      ((update_positions pm md date).1.positions.map
        (fun kv => calculate_position_pnl kv.2 md)).sum := by
  unfold get_total_pnl
  rw [update_positions_positions]
  apply congrArg List.sum
  apply List.map_congr_left
  intro kv hkv
  obtain ⟨orig, horig, rfl⟩ := List.mem_map.mp (List.mem_filter.mp hkv).1
  show (update_position_pnl md orig.2).current_pnl =
    calculate_position_pnl (update_position_pnl md orig.2) md
  rw [calculate_position_pnl_update]
  rfl

/-- C7: a leg that does not parse, or whose option type/strike is missing
from the snapshot, contributes exactly zero to the recomputed position P&L
(adding such a leg leaves the P&L unchanged), and a position whose exit
conditions do not fire stays in the open set — P&L recomputation never
aborts or removes a position. -/
theorem c7_unpriceable_legs_skipped :
    (∀ (p : Position) (md : MarketData) (key : String) (price : ℚ),
      parse_option_key p key = none →
      calculate_position_pnl { p with entry_prices := (key, price) :: p.entry_prices } md =
        calculate_position_pnl p md) ∧
    (∀ (p : Position) (md : MarketData) (key : String) (price : ℚ) (d : LegDetails),
      parse_option_key p key = some d →
      option_price md d.option_type d.strike = none →
      calculate_position_pnl { p with entry_prices := (key, price) :: p.entry_prices } md =
        calculate_position_pnl p md) ∧
    (∀ (pm : PositionManager) (md : MarketData) (date : String) (pid : String) (p : Position),
      (pid, p) ∈ pm.positions →
      check_exit_conditions (update_position_pnl md p) md.timestamp = none →
      (pid, update_position_pnl md p) ∈ (update_positions pm md date).1.positions) := by
  refine ⟨?_, ?_, ?_⟩
  · intro p md key price h
    have hexp : calculate_position_pnl
        { p with entry_prices := (key, price) :: p.entry_prices } md =
        leg_contribution p md key price + calculate_position_pnl p md := rfl
    rw [hexp]
    unfold leg_contribution
    simp only [h]
    rw [zero_add]
  · intro p md key price d h1 h2
    have hexp : calculate_position_pnl
        { p with entry_prices := (key, price) :: p.entry_prices } md =
        leg_contribution p md key price + calculate_position_pnl p md := rfl
    rw [hexp]
    unfold leg_contribution
    simp only [h1, h2]
    rw [zero_add]
  · intro pm md date pid p hmem hexit
    rw [update_positions_positions]
    apply List.mem_filter.mpr
    refine ⟨List.mem_map.mpr ⟨(pid, p), hmem, rfl⟩, ?_⟩
    show (check_exit_conditions (update_position_pnl md p) md.timestamp).isNone = true
    rw [hexit]
    rfl

/-- Witness for C7: a malformed key "CE_xyz", a parseable key "PE_55.0" with
no PE prices in the snapshot, and the surviving open position. -/
theorem c7_witness :
    (parse_option_key c7pos "CE_xyz" = none ∧
      calculate_position_pnl
        { c7pos with entry_prices := ("CE_xyz", 2) :: c7pos.entry_prices } c7md =
        calculate_position_pnl c7pos c7md) ∧
    (parse_option_key c7pos "PE_55.0" =
        some { option_type := "PE", strike := 55, action := "SELL", quantity := 1 } ∧
      option_price c7md "PE" 55 = none ∧
      calculate_position_pnl
        { c7pos with entry_prices := ("PE_55.0", 3) :: c7pos.entry_prices } c7md =
        calculate_position_pnl c7pos c7md) ∧
    ("p0", update_position_pnl c7md c7pos) ∈ (update_positions c7pm c7md "").1.positions :=
  ⟨⟨by decide, c7_unpriceable_legs_skipped.1 c7pos c7md "CE_xyz" 2 (by decide)⟩,
   ⟨by decide, by decide,
    c7_unpriceable_legs_skipped.2.1 c7pos c7md "PE_55.0" 3
      { option_type := "PE", strike := 55, action := "SELL", quantity := 1 }
      (by decide) (by decide)⟩,
   c7_unpriceable_legs_skipped.2.2 c7pm c7md "" "p0" c7pos (by decide) (by decide)⟩

/-- C5 counterexample: the engine adds the tick's new positions BEFORE
calling update_positions, so a position created at tick 100 whose stop loss
is already breached at that tick's prices is closed by the very same tick's
exit evaluation (trade with entry and exit timeindex both 100), contradicting
the claimed one-tick delay. -/
theorem c5_counterexample_same_tick_close :
    process_time_interval empty_pm [c5pos] c5md [] "" = Except.ok c5_result_pair ∧
    c5pos.entry_timeindex = 100 ∧ c5md.timestamp = 100 ∧
    c5_result_pair.2.map (fun tr => (tr.entry_timeindex, tr.exit_timeindex, tr.exit_reason)) =
      [((100 : Int), (100 : Int), "STOP_LOSS")] := by
  refine ⟨?_, ?_, ?_, ?_⟩ <;> decide

/-- C5 amended: a position created at tick t is included in that same tick's
exit evaluation — process_time_interval adds new positions first and then
runs update_positions over the whole open set, so a new position whose exit
condition holds at its entry tick closes at tick t (whenever the tick
completes without the time-closure TypeError). -/
theorem c5_amended_same_tick_exit_evaluation
    (pm : PositionManager) (p : Position) (md : MarketData) (setups : List TradingSetup)
    (date r : String) (result : PositionManager × List Trade)
    (hexit : check_exit_conditions (update_position_pnl md p) md.timestamp = some r)
    (hok : process_time_interval pm [p] md setups date = Except.ok result) :
    close_position (update_position_pnl md p) md r date ∈ result.2 := by
  have hmem : close_position (update_position_pnl md p) md r date ∈
      (update_positions ([p].foldl (fun acc q => (add_position acc q).1) pm) md date).2 := by
    rw [update_positions_trades]
    rw [show ([p].foldl (fun acc q => (add_position acc q).1) pm).positions =
      pm.positions ++ [(p.setup_id ++ "_" ++ toString pm.position_counter, p)] from rfl]
    rw [List.map_append, List.filterMap_append]
    apply List.mem_append_right
    simp [hexit]
  simp only [process_time_interval, check_time_based_closures,
    update_gamma_scalping_positions] at hok
  split at hok
  · cases hok
  · cases hok
    refine List.mem_append.mpr (Or.inl ?_)
    simpa using hmem

/-- Witness for C5's amended statement on the concrete tick-100 scenario. -/
theorem c5_witness :
    close_position (update_position_pnl c5md c5pos) c5md "STOP_LOSS" "" ∈ c5_result_pair.2 :=
  c5_amended_same_tick_exit_evaluation empty_pm c5pos c5md [] "" "STOP_LOSS" c5_result_pair
    (by decide) (by decide)

/-- When the trend-strength magnitude exceeds 0.3 the classifier takes the
trending branch, which never reads the volatility estimate. -/
theorem classify_regime_base_trend_ignores_vol (t v v2 vel : ℚ) (h : pyabs t > 3/10) :
    classify_regime_base t v vel = classify_regime_base t v2 vel := by
  unfold classify_regime_base
  rw [if_pos h, if_pos h]

/-- C6 counterexample: the tenth and eleventh `c6prices` snapshots are two
consecutive snapshots that both classify TRENDING_UP, the first confidence is
4/5 < 1, yet the second confidence 67491/109970 is strictly smaller — the
recomputed base confidence fell by more than the +0.1 persistence boost. -/
theorem c6_counterexample_confidence_drop :
    c6run 11 = update_market_data vol_zero (c6run 10) (c6snap 997) ∧
    (c6run 10).current_regime = "TRENDING_UP" ∧
    (c6run 11).current_regime = (c6run 10).current_regime ∧
    (c6run 10).regime_confidence < 1 ∧
    (c6run 11).regime_confidence < (c6run 10).regime_confidence := by
  refine ⟨?_, ?_, ?_, ?_, ?_⟩
  · rw [c6run_eleven, c6run_ten, c6_step11]
  · rw [c6run_ten]; decide
  · rw [c6run_eleven, c6run_ten]; decide
  · rw [c6run_ten]; decide
  · rw [c6run_eleven, c6run_ten]; decide

/-- C6 amended: across two consecutive classifications of the same regime the
+0.1 stability boost applies to the second, so the second confidence is at
least the first whenever the second base (pre-boost) confidence has not
dropped below the first; the counterexample shows the inequality can fail
when the recomputed base confidence falls by more than 0.1. -/
theorem c6_amended_persistence_boost (n1 n2 : Nat) (t1 v1 vel1 t2 v2 vel2 : ℚ)
    (prev : String)
    (h1 : ¬ n1 < 10) (h2 : ¬ n2 < 10)
    (hsame : (classify_regime_base t2 v2 vel2).1 = (classify_regime_base t1 v1 vel1).1)
    (hbase : (classify_regime_base t1 v1 vel1).2 ≤ (classify_regime_base t2 v2 vel2).2)
    (hle : (classify_regime_base t1 v1 vel1).2 ≤ 1) :
    (classify_market_regime n1 t1 v1 vel1 prev).2 ≤
      (classify_market_regime n2 t2 v2 vel2 (classify_market_regime n1 t1 v1 vel1 prev).1).2 := by
  unfold classify_market_regime
  rw [if_neg h1, if_neg h2]
  dsimp only
  by_cases hprev : (classify_regime_base t1 v1 vel1).1 = prev
  · rw [if_pos hprev]
    dsimp only
    rw [if_pos hsame]
    dsimp only
    exact pymin_le_pymin_right _ _ _ (by linarith)
  · rw [if_neg hprev]
    rw [if_pos hsame]
    dsimp only
    exact le_pymin _ _ _ hle (by linarith)

/-- Witness for C6's amended statement: identical indicators (trend 3/5) fed
twice, starting from an unrelated previous regime. -/
theorem c6_witness :
    (classify_market_regime 10 (3/5) 0 0 "UNKNOWN").2 ≤
      (classify_market_regime 10 (3/5) 0 0
        (classify_market_regime 10 (3/5) 0 0 "UNKNOWN").1).2 :=
  c6_amended_persistence_boost 10 10 (3/5) 0 0 (3/5) 0 0 "UNKNOWN"
    (by decide) (by decide) (by decide) (by decide) (by decide)

/-- Closing against the synthetic empty-price snapshot prices every leg's
exit at 0. -/
theorem close_position_empty_exit_prices (p : Position) (t : Int) (r date : String) :
    ∀ kv ∈ (close_position p (empty_market_data t) r date).exit_prices, kv.2 = 0 := by
  intro kv hkv
  have hkv2 : kv ∈ p.entry_prices.map
      (fun kv => (kv.1, exit_price_for_key p (empty_market_data t) kv.1)) := hkv
  obtain ⟨orig, horig, rfl⟩ := List.mem_map.mp hkv2
  show exit_price_for_key p (empty_market_data t) orig.1 = 0
  unfold exit_price_for_key
  cases h : parse_option_key p orig.1 with
  | none => rfl
  | some d => rfl

/-- C9: evaluated at a manager holding one due position,
check_time_based_closures as written raises TypeError (the MarketData
dataclass requires `symbol`, which the call site omits) instead of closing
anything, while the evidently intended closure path empties the open set and
emits a TIME_BASED trade whose single leg exits at price 0.0 and whose P&L is
the full slippage-adjusted entry credit (5 - 2*0.005) * 1 * 100 = 499. -/
theorem c9_time_closure_eval :
    check_time_based_closures c9pm 50 [] =
      Except.error "TypeError: MarketData.__init__ missing required argument: symbol" ∧
    (check_time_based_closures_intended c9pm 50 []).1.positions = [] ∧
    (check_time_based_closures_intended c9pm 50 []).2.map
        (fun tr => (tr.exit_reason, tr.exit_prices, tr.pnl)) =
      [("TIME_BASED", [("CE_100.0", (0:ℚ))], (499:ℚ))] ∧
    (c9pos.entry_prices = [("CE_100.0", 5)] ∧ c9pos.slippage = 1/200 ∧
      (499:ℚ) = (5 - 2*(1/200)) * 1 * 100) := by
  refine ⟨?_, ?_, ?_, ?_⟩ <;> decide

/-- dsm_step never touches base_setups. -/
theorem dsm_step_base_setups (regime : String) (acc : DynamicSetupManager) (i : Nat) :
    (dsm_step regime acc i).base_setups = acc.base_setups := by
  unfold dsm_step
  dsimp only
  split <;> rfl

/-- dsm_step preserves the length of adjusted_setups. -/
theorem dsm_step_adjusted_length (regime : String) (acc : DynamicSetupManager) (i : Nat) :
    (dsm_step regime acc i).adjusted_setups.length = acc.adjusted_setups.length := by
  unfold dsm_step
  dsimp only
  split
  · rfl
  · exact List.length_set _ _ _

/-- The adjustment loop never touches base_setups. -/
theorem dsm_foldl_base (regime : String) (L : List Nat) (acc : DynamicSetupManager) :
    (L.foldl (dsm_step regime) acc).base_setups = acc.base_setups := by
  induction L generalizing acc with
  | nil => rfl
  | cons a L ih =>
    rw [List.foldl_cons, ih (dsm_step regime acc a), dsm_step_base_setups]

/-- The adjustment loop preserves the length of adjusted_setups. -/
theorem dsm_foldl_adjusted_length (regime : String) (L : List Nat) (acc : DynamicSetupManager) :
    (L.foldl (dsm_step regime) acc).adjusted_setups.length = acc.adjusted_setups.length := by
  induction L generalizing acc with
  | nil => rfl
  | cons a L ih =>
    rw [List.foldl_cons, ih (dsm_step regime acc a), dsm_step_adjusted_length]

/-- dsm_step at index i leaves every other adjusted entry unchanged. -/
theorem dsm_step_getD_ne (regime : String) (acc : DynamicSetupManager) (i j : Nat)
    (hne : i ≠ j) :
    (dsm_step regime acc i).adjusted_setups.getD j dummy_setup =
      acc.adjusted_setups.getD j dummy_setup := by
  unfold dsm_step
  dsimp only
  split
  · rfl
  · show (acc.adjusted_setups.set i _).getD j dummy_setup = _
    rw [List.getD_eq_getElem?_getD, List.getElem?_set_ne hne, ← List.getD_eq_getElem?_getD]

/-- The adjustment loop leaves adjusted entries at unprocessed indices
unchanged. -/
theorem dsm_foldl_getD_not_mem (regime : String) (L : List Nat) (acc : DynamicSetupManager)
    (j : Nat) (h : j ∉ L) :
    (L.foldl (dsm_step regime) acc).adjusted_setups.getD j dummy_setup =
      acc.adjusted_setups.getD j dummy_setup := by
  induction L generalizing acc with
  | nil => rfl
  | cons a L ih =>
    rw [List.foldl_cons,
      ih (dsm_step regime acc a) (fun hj => h (List.mem_cons_of_mem a hj))]
    exact dsm_step_getD_ne regime acc a j (fun he => h (he ▸ List.mem_cons_self a L))

/-- After the adjustment loop, every processed non-paused index holds exactly
the base setup with the regime multipliers applied once. -/
theorem dsm_foldl_spec (regime : String) (L : List Nat) (acc : DynamicSetupManager) (i : Nat)
    (hmem : i ∈ L) (hnd : L.Nodup)
    (hlen : acc.adjusted_setups.length = acc.base_setups.length)
    (hi : i < acc.base_setups.length)
    (hnp : should_pause_strategy_for_regime
      ((acc.base_setups.getD i dummy_setup)).setup_id regime = false) :
    (L.foldl (dsm_step regime) acc).adjusted_setups.getD i dummy_setup =
      adjust_parameters_for_regime (acc.base_setups.getD i dummy_setup) regime := by
  induction L generalizing acc with
  | nil => cases hmem
  | cons a L ih =>
    rw [List.foldl_cons]
    rcases List.mem_cons.mp hmem with rfl | hmem2
    · have hiL : i ∉ L := (List.nodup_cons.mp hnd).1
      rw [dsm_foldl_getD_not_mem regime L _ i hiL]
      unfold dsm_step
      rw [if_neg (by rw [hnp]; simp)]
      show (acc.adjusted_setups.set i _).getD i dummy_setup = _
      rw [List.getD_eq_getElem?_getD, List.getElem?_set_self (by rw [hlen]; exact hi)]
      rfl
    · have hnd2 := (List.nodup_cons.mp hnd).2
      have h1 : (dsm_step regime acc a).adjusted_setups.length =
          (dsm_step regime acc a).base_setups.length := by
        rw [dsm_step_adjusted_length, dsm_step_base_setups]; exact hlen
      have h2 : i < (dsm_step regime acc a).base_setups.length := by
        rw [dsm_step_base_setups]; exact hi
      have h3 : should_pause_strategy_for_regime
          (((dsm_step regime acc a).base_setups.getD i dummy_setup)).setup_id regime =
          false := by
        rw [dsm_step_base_setups]; exact hnp
      have hres := ih (dsm_step regime acc a) hmem2 hnd2 h1 h2 h3
      rw [dsm_step_base_setups] at hres
      exact hres

/-- update_market_regime never touches base_setups. -/
theorem update_market_regime_base (m : DynamicSetupManager) (regime : String) (conf : ℚ) :
    (update_market_regime m regime conf).base_setups = m.base_setups := by
  unfold update_market_regime
  dsimp only
  split
  · unfold adjust_setups_for_regime
    split
    · rfl
    · rw [dsm_foldl_base]
  · rfl

/-- update_market_regime preserves the length of adjusted_setups. -/
theorem update_market_regime_adjusted_length (m : DynamicSetupManager) (regime : String)
    (conf : ℚ) :
    (update_market_regime m regime conf).adjusted_setups.length =
      m.adjusted_setups.length := by
  unfold update_market_regime
  dsimp only
  split
  · unfold adjust_setups_for_regime
    split
    · rfl
    · rw [dsm_foldl_adjusted_length]
  · rfl

/-- One update_market_regime call with high confidence recomputes every
non-paused adjusted setup from its base copy. -/
theorem update_market_regime_spec (m : DynamicSetupManager) (regime : String) (conf : ℚ)
    (cfg : RegimeConfig) (i : Nat)
    (hcfg : regime_configs regime = some cfg) (hconf : 3/5 ≤ conf)
    (hlen : m.adjusted_setups.length = m.base_setups.length)
    (hi : i < m.base_setups.length)
    (hnp : should_pause_strategy_for_regime
      ((m.base_setups.getD i dummy_setup)).setup_id regime = false) :
    (update_market_regime m regime conf).adjusted_setups.getD i dummy_setup =
      adjust_parameters_for_regime (m.base_setups.getD i dummy_setup) regime := by
  unfold update_market_regime
  dsimp only
  rw [if_pos hconf]
  unfold adjust_setups_for_regime
  simp only [hcfg]
  exact dsm_foldl_spec regime (List.range _) _ i (List.mem_range.mpr hi)
    (List.nodup_range _) hlen hi hnp

/-- C10: for a configured regime delivered with confidence at least 0.6, any
number of consecutive update_market_regime calls leaves each non-paused
adjusted setup at exactly the base values times the regime multipliers,
applied once — adjustments never compound. -/
theorem c10_regime_adjustment_applied_once (m : DynamicSetupManager) (regime : String)
    (conf : ℚ) (cfg : RegimeConfig) (k i : Nat)
    (hcfg : regime_configs regime = some cfg) (hconf : 3/5 ≤ conf)
    (hlen : m.adjusted_setups.length = m.base_setups.length)
    (hi : i < m.base_setups.length)
    (hnp : should_pause_strategy_for_regime
      ((m.base_setups.getD i dummy_setup)).setup_id regime = false) :
    ((iterate_update_regime regime conf (k+1) m).adjusted_setups.getD i
        dummy_setup).target_pct =
      (m.base_setups.getD i dummy_setup).target_pct * cfg.target_pct_multiplier ∧
    ((iterate_update_regime regime conf (k+1) m).adjusted_setups.getD i
        dummy_setup).stop_loss_pct =
      (m.base_setups.getD i dummy_setup).stop_loss_pct * cfg.stop_loss_pct_multiplier ∧
    ((iterate_update_regime regime conf (k+1) m).adjusted_setups.getD i
        dummy_setup).scalping_price =
      (m.base_setups.getD i dummy_setup).scalping_price * cfg.scalping_price_multiplier := by
  induction k generalizing m with
  | zero =>
    have h1 : iterate_update_regime regime conf 1 m = update_market_regime m regime conf :=
      rfl
    rw [h1, update_market_regime_spec m regime conf cfg i hcfg hconf hlen hi hnp]
    simp [adjust_parameters_for_regime, hcfg]
  | succ k ih =>
    have h1 : iterate_update_regime regime conf (k+1+1) m =
        iterate_update_regime regime conf (k+1) (update_market_regime m regime conf) := rfl
    have hb := update_market_regime_base m regime conf
    have hlen2 : (update_market_regime m regime conf).adjusted_setups.length =
        (update_market_regime m regime conf).base_setups.length := by
      rw [update_market_regime_adjusted_length, hb]; exact hlen
    have hi2 : i < (update_market_regime m regime conf).base_setups.length := by
      rw [hb]; exact hi
    have hnp2 : should_pause_strategy_for_regime
        (((update_market_regime m regime conf).base_setups.getD i
          dummy_setup)).setup_id regime = false := by
      rw [hb]; exact hnp
    have hres := ih (update_market_regime m regime conf) hlen2 hi2 hnp2
    rw [hb] at hres
    rw [h1]
    exact hres

/-- Witness for C10: two consecutive HIGH_VOL deliveries at confidence 0.7
to the never-paused setup "alpha_1" yield the multipliers applied exactly
once. -/
theorem c10_witness :
    ((iterate_update_regime "HIGH_VOL" (7/10) (1+1) c10m).adjusted_setups.getD 0
        dummy_setup).target_pct =
      (c10m.base_setups.getD 0 dummy_setup).target_pct * (3/2) ∧
    ((iterate_update_regime "HIGH_VOL" (7/10) (1+1) c10m).adjusted_setups.getD 0
        dummy_setup).stop_loss_pct =
      (c10m.base_setups.getD 0 dummy_setup).stop_loss_pct * (13/10) ∧
    ((iterate_update_regime "HIGH_VOL" (7/10) (1+1) c10m).adjusted_setups.getD 0
        dummy_setup).scalping_price =
      (c10m.base_setups.getD 0 dummy_setup).scalping_price * (13/10) :=
  c10_regime_adjustment_applied_once c10m "HIGH_VOL" (7/10)
    { target_pct_multiplier := 3/2, stop_loss_pct_multiplier := 13/10,
      scalping_price_multiplier := 13/10 } 1 0
    (by decide) (by decide) (by decide) (by decide) (by decide)

end Olo
